import Mathlib

/-!
Verification development for the Dashboard-K3 repository (a Streamlit
data-entry and map-visualization front end backed by a Google Sheet).

The Python sources (`utils.py`, `forms.py`, `map_builder.py`, `app.py`,
`sheet_io.py`) are shallowly embedded below.  Machine floats are modelled
as exact rationals (`ℚ`); pandas `NaN` cells are modelled as `Option.none`;
Streamlit side effects (error/info messages, remote append calls, file
uploads) are recorded explicitly in result structures.  All definitions are
executable so that concrete scenarios can be settled by evaluation.
-/

namespace DashboardK3

/-! ### Character / string primitives

The Python sources lean on `str.lower`, `str.strip`, substring tests
(`"x" in s`) and regexes.  These are re-implemented structurally over
`List Char` so that every concrete instance reduces inside the kernel.
-/

/-- ASCII lower-casing of one character (models Python `str.lower` on the
ASCII column names and cell values used throughout the app). -/
def lowerChar (c : Char) : Char :=
  if 'A' ≤ c && c ≤ 'Z' then Char.ofNat (c.toNat + 32) else c

/-- Model of Python `str.lower()`. -/
def strLower (s : String) : String := ⟨s.data.map lowerChar⟩

/-- Whitespace characters recognised by Python `str.strip()` (ASCII part). -/
def isWS (c : Char) : Bool :=
  c == ' ' || c == '\t' || c == '\n' || c == '\r' || c == '\x0b' || c == '\x0c'

/-- Model of Python `str.strip()`. -/
def strTrim (s : String) : String :=
  ⟨((s.data.dropWhile isWS).reverse.dropWhile isWS).reverse⟩

/-- Does `pat` occur at the head of `s`? -/
def startsWithChars : List Char → List Char → Bool
  | [], _ => true
  | _ :: _, [] => false
  | p :: ps, c :: cs => p == c && startsWithChars ps cs

/-- Does `pat` occur anywhere in `s`?  (Recursion on the haystack.) -/
def containsChars (pat : List Char) : List Char → Bool
  | [] => pat.isEmpty
  | c :: cs => startsWithChars pat (c :: cs) || containsChars pat cs

/-- Model of Python `pat in s` on strings. -/
def strContains (s pat : String) : Bool := containsChars pat.data s.data

/-- Decimal digit value of a character, if any. -/
def digitVal? (c : Char) : Option Nat :=
  if '0' ≤ c && c ≤ '9' then some (c.toNat - '0'.toNat) else none

/-- Is the character a decimal digit? -/
def isDigitChar (c : Char) : Bool := (digitVal? c).isSome

/-- Natural number denoted by a digit string (most significant first). -/
def natOfDigits (cs : List Char) : Nat :=
  cs.foldl (fun a c => a * 10 + (digitVal? c).getD 0) 0

/-! ### Python float values

Machine floats are modelled as exact unnormalized fractions
`num / den` (the sources only ever parse decimal literals, so exactness is
faithful for every behaviour claimed about them).  No gcd-normalization is
performed, keeping all operations kernel-reducible.
-/

/-- An exact stand-in for a Python float: the fraction `num / den`. -/
structure PyNum where
  num : Int
  den : Nat
deriving DecidableEq, Repr

/-- The two fractions denote the same number. -/
def PyNum.eqv (a b : PyNum) : Prop := a.num * (b.den : Int) = b.num * (a.den : Int)

instance : DecidablePred fun p : PyNum × PyNum => p.1.eqv p.2 := by
  intro p; unfold PyNum.eqv; infer_instance

/-- Fraction addition, unnormalized. -/
def PyNum.add (a b : PyNum) : PyNum :=
  ⟨a.num * (b.den : Int) + b.num * (a.den : Int), a.den * b.den⟩

/-- Division of a fraction by a natural number (used for the centroid mean). -/
def PyNum.divNat (a : PyNum) (n : Nat) : PyNum := ⟨a.num, a.den * n⟩

/-- Model of Python `float(s)` restricted to the decimal-literal shapes
`[+-]? (digits [. digits?] | . digits)` that arise in this app
(exponent/infinity/nan spellings are out of scope).  Returns the exact
decimal value, `none` when `float` would raise `ValueError`. -/
def pyFloat? (s : String) : Option PyNum :=
  let cs := s.data
  let (neg, body) :=
    match cs with
    | '-' :: rest => (true, rest)
    | '+' :: rest => (false, rest)
    | _ => (false, cs)
  let intPart := body.takeWhile isDigitChar
  let afterInt := body.drop intPart.length
  match afterInt with
  | [] =>
      if intPart.isEmpty then none
      else
        let m : Int := (natOfDigits intPart : Int)
        some ⟨if neg then -m else m, 1⟩
  | '.' :: frac =>
      if frac.all isDigitChar && !(intPart.isEmpty && frac.isEmpty) then
        let m : Int := (natOfDigits (intPart ++ frac) : Int)
        some ⟨if neg then -m else m, 10 ^ frac.length⟩
      else none
  | _ => none

/-- Longest run of digits at the head of the list, and the remainder. -/
def spanDigits : List Char → (List Char × List Char)
  | [] => ([], [])
  | c :: rest =>
      if isDigitChar c then
        let (a, b) := spanDigits rest
        (c :: a, b)
      else ([], c :: rest)

/-- Greedy match of the regex `([+-]?[0-9]+(?:\.[0-9]+)?)`
(`map_builder.FLOAT_RE`) at the current position; on success returns the
matched token and the unconsumed input. -/
def matchFloatAt (cs : List Char) : Option (List Char × List Char) :=
  let attempt (sign : List Char) (body : List Char) : Option (List Char × List Char) :=
    match spanDigits body with
    | ([], _) => none
    | (ds, rest) =>
        match rest with
        | '.' :: r2 =>
            match spanDigits r2 with
            | ([], _) => some (sign ++ ds, rest)
            | (ds2, r3) => some (sign ++ ds ++ '.' :: ds2, r3)
        | _ => some (sign ++ ds, rest)
  match cs with
  | [] => none
  | c :: rest =>
      if c == '+' || c == '-' then attempt [c] rest
      else attempt [] cs

/-- Scanning loop of `re.findall(FLOAT_RE, s)`: try a match at each
position, consume matched tokens, otherwise advance one character.
`fuel` bounds the recursion by the input length. -/
def findFloatsAux : Nat → List Char → List (List Char)
  | 0, _ => []
  | _, [] => []
  | fuel + 1, c :: rest =>
      match matchFloatAt (c :: rest) with
      | some (tok, after) => tok :: findFloatsAux fuel after
      | none => findFloatsAux fuel rest

/-- `re.findall(FLOAT_RE, s)`: every float-literal token in `s`, in order. -/
def findFloats (s : String) : List (List Char) := findFloatsAux s.data.length s.data

/-- `re.findall(r'\d+', v)`: every maximal digit run in `v`, in order
(used by the last-number helper in `forms.py`). -/
def digitRunsAux : List Char → List Char → List String
  | acc, [] => if acc.isEmpty then [] else [⟨acc.reverse⟩]
  | acc, c :: rest =>
      if isDigitChar c then digitRunsAux (c :: acc) rest
      else if acc.isEmpty then digitRunsAux [] rest
      else (⟨acc.reverse⟩ : String) :: digitRunsAux [] rest

/-- All maximal digit runs of a string. -/
def digitRuns (s : String) : List String := digitRunsAux [] s.data

/-- Render a parsed decimal the way a Python f-string renders the float it
denotes (`float("1")` prints `1.0`, `float("2.50")` prints `2.5`):
integer part, a dot, then the fraction digits with trailing zeros removed
(at least one digit).  Only defined for power-of-ten denominators, which is
the shape every value fed to it has (they come from `pyFloat?`). -/
def decimalRepr (q : PyNum) : String :=
  match (List.range 40).find? (fun k => 10 ^ k == q.den) with
  | none => toString q.num ++ "/" ++ toString q.den
  | some k =>
      let sign := if q.num < 0 then "-" else ""
      let n := q.num.natAbs
      let ip := n / 10 ^ k
      let fp := n % 10 ^ k
      let fracDigits := (toString fp).data
      let padded := List.replicate (k - fracDigits.length) '0' ++ fracDigits
      let trimmed := padded.reverse.dropWhile (· == '0') |>.reverse
      let frac := if trimmed.isEmpty then "0" else (⟨trimmed⟩ : String)
      sign ++ toString ip ++ "." ++ frac

/-! ### `utils.py` -/

/-- `utils.RISK_TO_HEX`: the fixed five-entry level-to-color table. -/
def RISK_TO_HEX : List (String × String) :=
  [("lower", "#3d3d3d"), ("low", "#7db86a"), ("medium", "#f2e804"),
   ("high", "#ffaa00"), ("emergency", "#b10202")]

/-- `utils.LEVEL_OPTIONS`. -/
def LEVEL_OPTIONS : List String := ["Lower", "Low", "Medium", "High", "Emergency"]

/-- `utils.risk_to_color_hex(risk_value, default)`: empty input returns the
default; otherwise the trimmed, lower-cased label is looked up in
`RISK_TO_HEX` with the default as fallback. -/
def riskToColorHex (riskValue : String) (dflt : String := "#3388ff") : String :=
  if riskValue == "" then dflt
  else ((RISK_TO_HEX.lookup (strLower (strTrim riskValue))).getD dflt)

/-- Spec reading of the Risk-Color Mapper contract (§4.1): case-insensitive,
whitespace-trimmed lookup in the fixed table, caller default otherwise. -/
def riskSpecLookup (riskValue : String) (dflt : String) : String :=
  let k := strLower (strTrim riskValue)
  if k == "lower" then "#3d3d3d"
  else if k == "low" then "#7db86a"
  else if k == "medium" then "#f2e804"
  else if k == "high" then "#ffaa00"
  else if k == "emergency" then "#b10202"
  else dflt

/-! ### The data model

One dataset row is an ordered list of cells aligned with the header list;
`none` models a pandas `NaN` / missing value, `some s` a string value
(numeric cells are modelled by their decimal rendering, which is how every
consumer below observes them anyway — each access goes through `str`).
-/

/-- A cell of the dataset (`none` = pandas `NaN`). -/
abbrev Cell := Option String

/-- One observation row, aligned with the column list. -/
abbrev Row := List Cell

/-- The in-memory dataset: header columns plus rows (a pandas DataFrame). -/
structure DataFrame where
  cols : List String
  rows : List Row
deriving DecidableEq, Repr

/-- pandas `df.empty`: true when either axis has length zero. -/
def DataFrame.isEmptyDF (df : DataFrame) : Bool :=
  df.rows.isEmpty || df.cols.isEmpty

/-- `row.get(c)` on a pandas row: the cell under column `c`, `none` when the
column is absent. -/
def rowGet (cols : List String) (row : Row) (c : String) : Cell :=
  ((cols.zip row).lookup c).getD none

/-- Python `str(value)` on a cell: `NaN` prints as `"nan"`. -/
def cellStr (c : Cell) : String :=
  match c with
  | none => "nan"
  | some s => s

/-- `map_builder._is_blank`: `None`/`NaN` or whitespace-only string. -/
def isBlankCell (c : Cell) : Bool :=
  match c with
  | none => true
  | some s => strTrim s == ""

/-! ### `map_builder.py` -/

/-- `map_builder._find_level_col` (also `forms._find_level_col`): first
column whose lower-cased name contains `"level"` and `"risiko"`/`"resiko"`. -/
def findLevelCol (cols : List String) : Option String :=
  cols.find? (fun c =>
    let lc := strLower c
    strContains lc "level" && (strContains lc "risiko" || strContains lc "resiko"))

/-- `map_builder._find_indikator_surat_col`: first column whose lower-cased
name contains `"indikator"` and `"surat"`. -/
def findIndikatorSuratCol (cols : List String) : Option String :=
  cols.find? (fun c =>
    let lc := strLower c
    strContains lc "indikator" && strContains lc "surat")

/-- `map_builder._find_indikator_bungkus_col`: first column whose lower-cased
name contains `"indikator"` and `"bungkus"`. -/
def findIndikatorBungkusCol (cols : List String) : Option String :=
  cols.find? (fun c =>
    let lc := strLower c
    strContains lc "indikator" && strContains lc "bungkus")

/-- `map_builder._get_color_from_row`: the (stripped) value of the first
column literally named `color`/`warna` (case-insensitive), when non-blank. -/
def getColorFromRow (cols : List String) (row : Row) : Option String :=
  match cols.find? (fun c => strLower c == "color" || strLower c == "warna") with
  | none => none
  | some cc =>
      match rowGet cols row cc with
      | none => none
      | some v => if strTrim v == "" then none else some (strTrim v)

/-- `map_builder._valid_hex`: `#` followed by exactly 3 or 6 hex digits
(after stripping). -/
def validHex (s : String) : Bool :=
  let t := (strTrim s).data
  match t with
  | '#' :: rest =>
      (rest.length == 6 || rest.length == 3) &&
        rest.all (fun c =>
          isDigitChar c ||
          c == 'a' || c == 'b' || c == 'c' || c == 'd' || c == 'e' || c == 'f' ||
          c == 'A' || c == 'B' || c == 'C' || c == 'D' || c == 'E' || c == 'F')
  | _ => false

/-- `_valid_hex` lifted to cells: non-string (`None`/`NaN`) values fail. -/
def validHexO (c : Option String) : Bool :=
  match c with
  | none => false
  | some s => validHex s

/-- `map_builder._parse_coord_from_field`: the first two float tokens of the
string, both parsed, else `(None, None)`. -/
def parseCoordFromField (s : String) : Option PyNum × Option PyNum :=
  match findFloats s with
  | a :: b :: _ =>
      match pyFloat? ⟨a⟩, pyFloat? ⟨b⟩ with
      | some la, some lo => (some la, some lo)
      | _, _ => (none, none)
  | _ => (none, none)

/-- `map_builder._get_lat_lon_from_row`: dedicated latitude/longitude
columns first; when either is blank, fall back to parsing a combined
`koordinat`/`coord` column; otherwise convert the dedicated cells, keeping
the pair only when both convert (a lone latitude is passed through). -/
def getLatLonFromRow (cols : List String) (row : Row) : Option PyNum × Option PyNum :=
  let latKeys := cols.filter (fun c => ["latitude", "lat", "lintang"].contains (strLower c))
  let lonKeys := cols.filter (fun c => ["longitude", "lon", "lng", "bujur"].contains (strLower c))
  let lat : Cell := match latKeys.head? with | some k => rowGet cols row k | none => none
  let lon : Cell := match lonKeys.head? with | some k => rowGet cols row k | none => none
  let combined : Option (PyNum × PyNum) :=
    if isBlankCell lat || isBlankCell lon then
      match cols.find? (fun c => strContains (strLower c) "koordinat" || strContains (strLower c) "coord") with
      | some cc =>
          match parseCoordFromField (cellStr (rowGet cols row cc)) with
          | (some la, some lo) => some (la, lo)
          | _ => none
      | none => none
    else none
  match combined with
  | some (la, lo) => (some la, some lo)
  | none =>
      let latF := if isBlankCell lat then none else pyFloat? (strTrim (cellStr lat))
      let lonF := if isBlankCell lon then none else pyFloat? (strTrim (cellStr lon))
      match latF, lonF with
      | some a, some b => (some a, some b)
      | some a, none => (some a, none)
      | none, _ => (none, none)

/-- `map_builder._get_marker_type_from_indikator_surat`. -/
def markerTypeFromIndikatorSurat (v : Cell) : String :=
  match v with
  | none => "circle"
  | some s =>
      if s == "" then "circle"
      else
        let t := strLower (strTrim s)
        if strContains t "surat himbauan" then "square"
        else if strContains t "selesai surat ke muspika" then "circle"
        else "circle"

/-- `map_builder._get_border_color_from_indikator_bungkus`. -/
def borderColorFromIndikatorBungkus (v : Cell) : String :=
  match v with
  | none => "#000000"
  | some s =>
      if s == "" then "#000000"
      else
        let t := strLower (strTrim s)
        if strContains t "pengiriman usulan" then "#ff6b35"
        else if strContains t "realisasi pembungkusan" then "#28a745"
        else if strContains t "belum ada tindak lanjut" then "#dc3545"
        else "#000000"

/-- Fill-color resolution of `make_map` (its body, lines 260-272): the
`Color`/`Warna` cell if valid hex, else the caller-supplied color column's
cell if valid hex, else the level-derived color when a level column exists,
else the fixed `#3388ff`. -/
def resolveFillColor (cols : List String) (colorCol : String) (levelCol : Option String)
    (row : Row) : String :=
  let f0 : Option String := getColorFromRow cols row
  let f1 : Option String :=
    if validHexO f0 then f0
    else if cols.contains colorCol then rowGet cols row colorCol else none
  let f2 : Option String :=
    if validHexO f1 then f1
    else
      match levelCol with
      | some lc => some (riskToColorHex (cellStr (rowGet cols row lc)) "#3388ff")
      | none => f1
  if validHexO f2 then f2.getD "" else "#3388ff"

/-- Spec reading of §4.4 fill-color resolution: the first valid-hex
candidate among (1) the per-row Color/Warna value, (2) the caller-supplied
color column's value, (3) the risk-derived color, else (4) `#3388ff`. -/
def fillColorSpec (cols : List String) (colorCol : String) (levelCol : Option String)
    (row : Row) : String :=
  let c1 : Option String := getColorFromRow cols row
  let c2 : Option String := if cols.contains colorCol then rowGet cols row colorCol else none
  let c3 : Option String :=
    levelCol.map (fun lc => riskToColorHex (cellStr (rowGet cols row lc)) "#3388ff")
  if validHexO c1 then c1.getD ""
  else if validHexO c2 then c2.getD ""
  else if validHexO c3 then c3.getD ""
  else "#3388ff"

/-- One rendered map marker (position, styling). -/
structure Marker where
  lat : PyNum
  lon : PyNum
  fillColor : String
  markerType : String
  borderColor : String
deriving DecidableEq, Repr

/-- A built folium map: initial center plus the rendered markers. -/
structure MapObj where
  center : PyNum × PyNum
  markers : List Marker
deriving DecidableEq, Repr

/-- Result of `make_map`: the map (or `None`) plus emitted info messages. -/
structure MakeMapResult where
  map : Option MapObj
  infos : List String
deriving DecidableEq, Repr

/-- Per-row marker construction inside `make_map`'s loop: rows whose
coordinates do not resolve are skipped, all others get a styled marker. -/
def markerForRow (cols : List String) (colorCol : String)
    (levelCol indSuratCol indBungkusCol : Option String) (row : Row) : Option Marker :=
  match getLatLonFromRow cols row with
  | (some la, some lo) =>
      some
        { lat := la, lon := lo
          fillColor := resolveFillColor cols colorCol levelCol row
          markerType :=
            match indSuratCol with
            | some c => markerTypeFromIndikatorSurat (rowGet cols row c)
            | none => "circle"
          borderColor :=
            match indBungkusCol with
            | some c => borderColorFromIndikatorBungkus (rowGet cols row c)
            | none => "#000000" }
  | _ => none

/-- Arithmetic-mean centroid of the valid points; `(0, 0)` when none. -/
def centroid (pts : List (PyNum × PyNum)) : PyNum × PyNum :=
  match pts with
  | [] => (⟨0, 1⟩, ⟨0, 1⟩)
  | _ =>
      let sLat := (pts.map Prod.fst).foldl PyNum.add ⟨0, 1⟩
      let sLon := (pts.map Prod.snd).foldl PyNum.add ⟨0, 1⟩
      (sLat.divNat pts.length, sLon.divNat pts.length)

/-- `map_builder.make_map(df, color_col, ...)`: `None` plus the "no data"
info message when `df.empty`; otherwise a map centred on the centroid of
the resolvable rows, with one styled marker per resolvable row. -/
def makeMap (df : DataFrame) (colorCol : String := "Color") : MakeMapResult :=
  if df.isEmptyDF then
    { map := none, infos := ["Tidak ada data untuk dipetakan."] }
  else
    let cols := df.cols
    let levelCol := findLevelCol cols
    let indSurat := findIndikatorSuratCol cols
    let indBungkus := findIndikatorBungkusCol cols
    let markers := df.rows.filterMap (markerForRow cols colorCol levelCol indSurat indBungkus)
    let pts := markers.map (fun m => (m.lat, m.lon))
    { map := some { center := centroid pts, markers := markers }, infos := [] }

/-! ### `forms.py` -/

/-- `forms._is_number_column`: exclusion list first, then the number
keywords, all as case-insensitive substring tests. -/
def isNumberColumn (columnName : String) : Bool :=
  let cl := strLower columnName
  let excluded := ["nomer surat pemohonan pembungkusan", "nomer surat pfk", "idpel", "no meter"]
  if excluded.any (fun e => strContains cl e) then false
  else ["no", "nomor", "nomer", "number", "num", "urut"].any (fun k => strContains cl k)

/-- `forms._is_date_column`: person-name exclusions first, then the date
keywords. -/
def isDateColumn (columnName : String) : Bool :=
  let cl := strLower columnName
  if ["petugas", "nama", "penemu"].any (fun e => strContains cl e) then false
  else ["tanggal", "tgl", "date", "waktu", "time", "bulan", "tahun"].any (fun k => strContains cl k)

/-- `forms._is_indicator_column`: one of the four fixed indicator families. -/
def isIndicatorColumn (columnName : String) : Bool :=
  let cl := strLower columnName
  ["indikator surat", "indikator bungkus", "indikator pfk",
   "perubahan konstruksi mandiri"].any (fun k => strContains cl k)

/-- The skip test at the head of the per-column loop in
`render_input_form`: the level column itself, any name containing
`latitude`/`longitude`/`color`, and combined-coordinate names. -/
def isSkipColumn (levelCol : Option String) (c : String) : Bool :=
  let cl := strLower c
  levelCol == some c || ["latitude", "longitude", "color"].any (fun k => strContains cl k) ||
    strContains cl "koordinat" || strContains cl "coord"

/-- The semantic role a column is given by the per-column dispatch in
`render_input_form`. -/
inductive Role where
  | skipped
  | documentation
  | feeder
  | indicator
  | date
  | number
  | plain
deriving DecidableEq, Repr

/-- The per-column dispatch of `render_input_form` (lines 427-515) as a
function: skip test, then documentation, feeder (`penyulang`), indicator,
date, number, and the plain-text fallback, in source order. -/
def classifyColumn (levelCol : Option String) (c : String) : Role :=
  let cl := strLower c
  if isSkipColumn levelCol c then .skipped
  else if strContains cl "dokumentasi" then .documentation
  else if strContains cl "penyulang" then .feeder
  else if isIndicatorColumn c then .indicator
  else if isDateColumn c then .date
  else if isNumberColumn c then .number
  else .plain

/-- Spec reading of §4.2: the ordered predicate list
skip → documentation → feeder → indicator → date → number, first match
wins, plain-text fallback. -/
def rolePriority (levelCol : Option String) : List ((String → Bool) × Role) :=
  [(isSkipColumn levelCol, .skipped),
   (fun c => strContains (strLower c) "dokumentasi", .documentation),
   (fun c => strContains (strLower c) "penyulang", .feeder),
   (isIndicatorColumn, .indicator),
   (isDateColumn, .date),
   (isNumberColumn, .number)]

/-- Classification per the spec's fixed priority order. -/
def classifySpecOrder (levelCol : Option String) (c : String) : Role :=
  match (rolePriority levelCol).find? (fun pr => pr.1 c) with
  | some pr => pr.2
  | none => .plain

/-- The values considered empty-like by `_get_last_number_from_column`. -/
def badValues : List String := ["", "nan", "none"]

/-- How `_get_last_number_from_column` reports a qualifying value: the raw
value annotated with its last embedded digit run, or the raw value when it
holds no digits (the `cleaned.isdigit()` and final branches both return it
verbatim). -/
def annotateNumber (v : String) : String :=
  match (digitRuns v).getLast? with
  | some lastRun => v ++ " (angka: " ++ lastRun ++ ")"
  | none => v

/-- The bottom-up scan inside `_get_last_number_from_column`: skip
blank/`nan`/`none`/`"0"`; on the first other value, report it annotated. -/
def lastNumberScan : List String → Option String
  | [] => none
  | v :: rest =>
      if v == "" || badValues.contains (strLower v) || v == "0" then lastNumberScan rest
      else some (annotateNumber v)

/-- `forms._get_last_number_from_column(df, column_name)`: values are
stringified and stripped, empty-like ones dropped; the remaining values are
scanned from the most recently appended backwards; when the scan finds
nothing (every retained value is `"0"`) the last retained value is
returned; the `"Belum ada data"` sentinel only appears when the frame is
empty, the column is missing, or no value survives the empty-like filter. -/
def getLastNumberFromColumn (df : DataFrame) (columnName : String) : String :=
  if df.isEmptyDF || !df.cols.contains columnName then "Belum ada data"
  else
    let s := df.rows.map (fun r => strTrim (cellStr (rowGet df.cols r columnName)))
    let filtered := s.filter (fun v => !badValues.contains (strLower v))
    if filtered.isEmpty then "Belum ada data"
    else
      match lastNumberScan filtered.reverse with
      | some res => res
      | none => (filtered.getLast?).getD ""

/-- The last-number behaviour as amended: after dropping
blank/`nan`/`none` values, the first value other than `"0"` counting from
the most recently appended is reported (annotated); when every retained
value is `"0"` the most recent of them (i.e. `"0"`) is reported; the
`"Belum ada data"` sentinel appears only when nothing at all is retained or
the column is missing/empty. -/
def lastNumberAmended (df : DataFrame) (columnName : String) : String :=
  if df.isEmptyDF || !df.cols.contains columnName then "Belum ada data"
  else
    let retained :=
      (df.rows.map (fun r => strTrim (cellStr (rowGet df.cols r columnName)))).filter
        (fun v => !badValues.contains (strLower v))
    match retained.reverse.find? (fun v => v != "0") with
    | some v => annotateNumber v
    | none =>
        match retained.reverse.head? with
        | some v => v
        | none => "Belum ada data"

/-- `input_vals.get(col, "")`: association-list lookup with `""` default. -/
def lookupVal (vals : List (String × String)) (col : String) : String :=
  (vals.lookup col).getD ""

/-- `input_vals[col] = v`: association-list update (first binding wins on
lookup, so updating prepends after removing the old binding). -/
def setVal (vals : List (String × String)) (col v : String) : List (String × String) :=
  (col, v) :: vals.filter (fun p => p.1 != col)

/-- Python `s.split(",")`: split at every comma. -/
def splitCommaAux : List Char → List Char → List String
  | acc, [] => [(⟨acc.reverse⟩ : String)]
  | acc, c :: rest =>
      if c == ',' then (⟨acc.reverse⟩ : String) :: splitCommaAux [] rest
      else splitCommaAux (c :: acc) rest

/-- Python `s.split(",")` on a string. -/
def splitComma (s : String) : List String := splitCommaAux [] s.data

/-- The coordinate parsing of the `Koordinat` input in
`render_input_form`: empty text means no coordinates (no error);
otherwise the text must split on `","` into exactly two float literals,
any failure leaving both values absent. -/
def parseCoordinates (s : String) : Option (PyNum × PyNum) :=
  if s == "" then none
  else
    match splitComma s with
    | [a, b] =>
        match pyFloat? (strTrim a), pyFloat? (strTrim b) with
        | some la, some lo => some (la, lo)
        | _, _ => none
    | _ => none

/-- One cell of the remote row assembled on submit (lines 576-597 of
`forms.py`): level value, combined-coordinate rendering, risk-derived hex,
blanked dedicated latitude/longitude cells, then the collected input value
(documentation, date and plain branches all read `input_vals`). -/
def assembleCell (levelCol : Option String) (levelValue : String)
    (latlon : Option (PyNum × PyNum)) (autoHex : String)
    (vals : List (String × String)) (col : String) : String :=
  let cl := strLower col
  if some col == levelCol then levelValue
  else if strContains cl "koordinat" || cl == "coord" || cl == "coordinates" then
    match latlon with
    | some (la, lo) => decimalRepr la ++ ", " ++ decimalRepr lo
    | none => ""
  else if cl == "color" then autoHex
  else if ["latitude", "lat", "longitude", "lon", "lng"].contains cl then ""
  else if strContains cl "dokumentasi" then lookupVal vals col
  else if isDateColumn col then lookupVal vals col
  else lookupVal vals col

/-- The `row = []; for col in df.columns: row.append(...)` loop. -/
def buildRow (cols : List String) (levelCol : Option String) (levelValue : String)
    (latlon : Option (PyNum × PyNum)) (autoHex : String)
    (vals : List (String × String)) : List String :=
  cols.map (assembleCell levelCol levelValue latlon autoHex vals)

/-- Spec reading of §4.3 step 4 (row assembly): level column gets the
chosen level; a combined coordinate column gets `"lat, lon"` when both were
parsed, else empty; a `Color` column gets the risk-derived hex; dedicated
latitude/longitude columns are always written empty; every other column
(documentation included) gets the collected input value. -/
def assembleCellSpec (levelCol : Option String) (levelValue : String)
    (latlon : Option (PyNum × PyNum)) (autoHex : String)
    (vals : List (String × String)) (col : String) : String :=
  let cl := strLower col
  if some col == levelCol then levelValue
  else if strContains cl "koordinat" || cl == "coord" || cl == "coordinates" then
    match latlon with
    | some (la, lo) => decimalRepr la ++ ", " ++ decimalRepr lo
    | none => ""
  else if cl == "color" then autoHex
  else if ["latitude", "lat", "longitude", "lon", "lng"].contains cl then ""
  else lookupVal vals col

/-- One cell of the locally mirrored row (lines 608-624 of `forms.py`):
the combined coordinate column stores the raw entered text, the dedicated
latitude/longitude columns store the parsed floats (empty string when
absent). -/
def mirrorCell (levelCol : Option String) (levelValue coordText : String)
    (latlon : Option (PyNum × PyNum)) (autoHex : String)
    (vals : List (String × String)) (col : String) : Cell :=
  let cl := strLower col
  if some col == levelCol then some levelValue
  else if strContains cl "koordinat" || cl == "coord" || cl == "coordinates" then
    some (if coordText == "" then "" else coordText)
  else if cl == "color" then some autoHex
  else if ["latitude", "lat"].contains cl then
    some (match latlon with | some (la, _) => decimalRepr la | none => "")
  else if ["longitude", "lon", "lng"].contains cl then
    some (match latlon with | some (_, lo) => decimalRepr lo | none => "")
  else if isDateColumn col then some (lookupVal vals col)
  else some (lookupVal vals col)

/-- The locally mirrored row, aligned with the sheet's columns. -/
def mirrorRow (cols : List String) (levelCol : Option String)
    (levelValue coordText : String) (latlon : Option (PyNum × PyNum))
    (autoHex : String) (vals : List (String × String)) : Row :=
  cols.map (mirrorCell levelCol levelValue coordText latlon autoHex vals)

/-- Upload resolution on submit (lines 529-569 of `forms.py`), with the
Drive collaborator abstracted as `uploadResult`: each pending documentation
column's value becomes the obtained URL, or `""` on any failure. -/
def applyUploads (vals : List (String × String)) (cols : List String)
    (pending : List String) (uploadResult : String → Option String) :
    List (String × String) :=
  cols.foldl
    (fun acc col =>
      if pending.contains col then setVal acc col ((uploadResult col).getD "") else acc)
    vals

/-- Observable effects of one submission cycle of `render_input_form`. -/
structure SubmitEffects where
  validationError : Bool
  uploadsAttempted : List String
  remoteAppends : List (List String)
  assembledRow : Option (List String)
  newDf : DataFrame
  succeeded : Bool
deriving DecidableEq, Repr

/-- The submitted branch of `forms.render_input_form` (lines 519-647):
level validation aborts the cycle before any write; otherwise uploads are
resolved, the remote row is assembled, and an equivalent row is appended to
the local in-memory dataset.  `remoteAppends` records the calls made to
`sheet_io.append_row`: the source assembles `row` but never invokes
`append_row` (its import and the `gc` parameter are unused), so the list is
empty on every path. -/
def submitCycle (df : DataFrame) (chosenLevel coordText : String)
    (inputVals : List (String × String)) (pending : List String)
    (uploadResult : String → Option String) : SubmitEffects :=
  if df.cols.isEmpty then
    { validationError := false, uploadsAttempted := [], remoteAppends := []
      assembledRow := none, newDf := df, succeeded := false }
  else
    let levelCol := findLevelCol df.cols
    if levelCol.isSome && chosenLevel == "" then
      { validationError := true, uploadsAttempted := [], remoteAppends := []
        assembledRow := none, newDf := df, succeeded := false }
    else
      let autoHex := riskToColorHex chosenLevel "#3388ff"
      let latlon := parseCoordinates coordText
      let attempted := df.cols.filter (fun c => pending.contains c)
      let vals := applyUploads inputVals df.cols pending uploadResult
      let row := buildRow df.cols levelCol chosenLevel latlon autoHex vals
      let newRow := mirrorRow df.cols levelCol chosenLevel coordText latlon autoHex vals
      let newDf : DataFrame :=
        if df.isEmptyDF then ⟨df.cols, [newRow]⟩ else ⟨df.cols, df.rows ++ [newRow]⟩
      { validationError := false, uploadsAttempted := attempted, remoteAppends := []
        assembledRow := some row, newDf := newDf, succeeded := true }

/-! ### `app.py` -/

/-- The string fed to the md5 fingerprint in `app._get_data_hash` (shape,
column names, first and last row).  Its only consumer is the opaque hash
parameter, so the exact Python `str(...)` punctuation is abbreviated. -/
def dataStr (df : DataFrame) : String :=
  toString df.rows.length ++ "x" ++ toString df.cols.length ++
    String.join (df.cols.map (fun c => "|" ++ c)) ++
    String.join (((df.rows.head?).getD []).map (fun c => "|" ++ cellStr c)) ++
    String.join (((df.rows.getLast?).getD []).map (fun c => "|" ++ cellStr c))

/-- `app._get_data_hash(df)`: the constant `"empty"` for an empty frame,
otherwise the md5 digest (the external `hashlib` collaborator, passed in as
`md5hex`) of the structural summary string. -/
def getDataHash (md5hex : String → String) (df : DataFrame) : String :=
  if df.isEmptyDF then "empty" else md5hex (dataStr df)

/-- The cache-invalidation comparison of `app.main` (lines 95-96 and 173):
the freshly computed fingerprint differs from the stored one. -/
def dataChanged (lastHash : String) (md5hex : String → String) (df : DataFrame) : Bool :=
  getDataHash md5hex df != lastHash

/-- The map-rebuild trigger of `app.main` (line 176): fingerprint mismatch
or an absent cached map. -/
def mapNeedsRebuild (mapHash : String) (cachedMapIsNone : Bool)
    (md5hex : String → String) (df : DataFrame) : Bool :=
  (getDataHash md5hex df != mapHash) || cachedMapIsNone

/-! ### Helper lemmas -/

/-- Looking up a key in the fixed risk table is the five-way comparison
chain. -/
theorem lookup_risk_table (k d : String) :
    ((RISK_TO_HEX.lookup k).getD d) =
      (if k == "lower" then "#3d3d3d"
       else if k == "low" then "#7db86a"
       else if k == "medium" then "#f2e804"
       else if k == "high" then "#ffaa00"
       else if k == "emergency" then "#b10202"
       else d) := by
  cases h1 : (k == "lower") <;> cases h2 : (k == "low") <;> cases h3 : (k == "medium") <;>
    cases h4 : (k == "high") <;> cases h5 : (k == "emergency") <;>
      simp [RISK_TO_HEX, List.lookup, BEq.comm, h1, h2, h3, h4, h5]

/-- With the system default, the mapper always yields a valid hex color. -/
theorem riskToColorHex_validHex (v : String) :
    validHex (riskToColorHex v "#3388ff") = true := by
  unfold riskToColorHex
  split
  · decide
  · rw [lookup_risk_table]
    repeat (first | decide | split)

/-- `validHexO` on a present cell is `validHex` of its content. -/
theorem validHexO_some (s : String) : validHexO (some s) = validHex s := rfl

/-- `validHexO` on an absent cell is false. -/
theorem validHexO_none : validHexO none = false := rfl

/-- Per-cell agreement of the source row-assembly dispatch with the spec's
description (the documentation/date/fallback branches all read the
collected input, so they collapse). -/
theorem assembleCell_eq_spec (levelCol : Option String) (levelValue : String)
    (latlon : Option (PyNum × PyNum)) (autoHex : String)
    (vals : List (String × String)) (col : String) :
    assembleCell levelCol levelValue latlon autoHex vals col =
      assembleCellSpec levelCol levelValue latlon autoHex vals col := by
  unfold assembleCell assembleCellSpec
  simp only [ite_self]

/-- On a list without blank/`nan`/`none` entries the bottom-up scan is a
`find?` for the first value other than `"0"`, reported annotated. -/
theorem lastNumberScan_eq_find (l : List String)
    (h : ∀ v ∈ l, badValues.contains (strLower v) = false) :
    lastNumberScan l = (l.find? (fun v => v != "0")).map annotateNumber := by
  induction l with
  | nil => rfl
  | cons v rest ih =>
    have hv := h v (List.mem_cons_self v rest)
    have hrest : ∀ x ∈ rest, badValues.contains (strLower x) = false :=
      fun x hx => h x (List.mem_cons_of_mem v hx)
    have hne : (v == "") = false := by
      cases he : v == "" with
      | false => rfl
      | true =>
        exfalso
        have hv0 : v = "" := eq_of_beq he
        subst hv0
        simp [badValues, strLower] at hv
    unfold lastNumberScan
    rw [hne, hv]
    simp only [Bool.false_or]
    cases h0 : v == "0" with
    | true =>
      have hb : (v != "0") = false := by simp [bne, h0]
      simp [h0, List.find?, hb, ih hrest]
    | false =>
      have hb : (v != "0") = true := by simp [bne, h0]
      simp [h0, List.find?, hb]

/-! ### The claims -/

/-- C1: the spec states that a validated submission appends the assembled
row to the remote backing store, the row then being present both remotely
and locally.  The code contradicts this (and its own success message
"Baris berhasil ditambahkan ke Google Sheets"): `render_input_form`
assembles the row but never calls `sheet_io.append_row` — the import and
the `gc` client parameter are unused — so no submission cycle ever
performs a remote append, even though the local in-memory dataset does
gain the row and success is reported. -/
theorem submit_cycle_never_appends_to_remote_store :
    (∀ (df : DataFrame) (chosenLevel coordText : String)
        (inputVals : List (String × String)) (pending : List String)
        (uploadResult : String → Option String),
      (submitCycle df chosenLevel coordText inputVals pending uploadResult).remoteAppends = []) ∧
    ((submitCycle ⟨["Level Resiko", "Alamat"], [[some "High", some "Jl. A"]]⟩ "Medium" ""
        [("Alamat", "Jl. B")] [] (fun _ => none)).succeeded = true ∧
     (submitCycle ⟨["Level Resiko", "Alamat"], [[some "High", some "Jl. A"]]⟩ "Medium" ""
        [("Alamat", "Jl. B")] [] (fun _ => none)).remoteAppends = [] ∧
     (submitCycle ⟨["Level Resiko", "Alamat"], [[some "High", some "Jl. A"]]⟩ "Medium" ""
        [("Alamat", "Jl. B")] [] (fun _ => none)).assembledRow = some ["Medium", "Jl. B"] ∧
     (submitCycle ⟨["Level Resiko", "Alamat"], [[some "High", some "Jl. A"]]⟩ "Medium" ""
        [("Alamat", "Jl. B")] [] (fun _ => none)).newDf.rows.length = 2) := by
  constructor
  · intro df cl ct iv p ur
    by_cases h1 : df.cols.isEmpty
    · simp [submitCycle, h1]
    · by_cases h2 : (findLevelCol df.cols).isSome && cl == ""
      · simp [submitCycle, h1, h2]
      · simp [submitCycle, h1, h2]
  · exact ⟨by decide, by decide, by decide, by decide⟩

/-- C2: when a risk-level column exists and no level was chosen, the
submission cycle aborts with the validation error and performs no writes:
no upload is attempted, no row is assembled or appended, and the in-memory
dataset is returned unchanged. -/
theorem level_validation_aborts_without_writes (df : DataFrame)
    (chosenLevel coordText : String) (inputVals : List (String × String))
    (pending : List String) (uploadResult : String → Option String)
    (hlev : (findLevelCol df.cols).isSome = true) (hnone : chosenLevel = "") :
    submitCycle df chosenLevel coordText inputVals pending uploadResult =
      { validationError := true, uploadsAttempted := [], remoteAppends := []
        assembledRow := none, newDf := df, succeeded := false } := by
  have hcols : df.cols.isEmpty = false := by
    cases h : df.cols with
    | nil => rw [h] at hlev; simp [findLevelCol] at hlev
    | cons a l => simp [h]
  subst hnone
  simp [submitCycle, hcols, hlev]

/-- C2 witness: a concrete dataset with a level column, submitted with no
chosen level, aborts exactly as stated. -/
theorem level_validation_aborts_without_writes_witness :
    (findLevelCol ["Level Resiko", "Alamat"]).isSome = true ∧
    submitCycle ⟨["Level Resiko", "Alamat"], [[some "High", some "Jl. A"]]⟩ "" ""
        [("Alamat", "Jl. B")] [] (fun _ => none) =
      { validationError := true, uploadsAttempted := [], remoteAppends := []
        assembledRow := none
        newDf := ⟨["Level Resiko", "Alamat"], [[some "High", some "Jl. A"]]⟩
        succeeded := false } :=
  ⟨by decide,
   level_validation_aborts_without_writes
     ⟨["Level Resiko", "Alamat"], [[some "High", some "Jl. A"]]⟩ "" ""
     [("Alamat", "Jl. B")] [] (fun _ => none) (by decide) rfl⟩

/-- C3: column classification is a total function assigning exactly one
role, agreeing with the spec's fixed priority order skip-list →
documentation → feeder → indicator → date → number → plain text; in
particular "Tanggal No Urut" matches both a date keyword and a number
keyword and classifies as date. -/
theorem column_classification_total_and_priority_ordered :
    (∀ (levelCol : Option String) (c : String),
      classifyColumn levelCol c = classifySpecOrder levelCol c) ∧
    classifyColumn none "Tanggal No Urut" = Role.date ∧
    isDateColumn "Tanggal No Urut" = true ∧
    isNumberColumn "Tanggal No Urut" = true := by
  refine ⟨?_, by decide, by decide, by decide⟩
  intro lc c
  unfold classifyColumn classifySpecOrder rolePriority
  cases h1 : isSkipColumn lc c <;> cases h2 : strContains (strLower c) "dokumentasi" <;>
    cases h3 : strContains (strLower c) "penyulang" <;> cases h4 : isIndicatorColumn c <;>
      cases h5 : isDateColumn c <;> cases h6 : isNumberColumn c <;>
        simp [List.find?, h1, h2, h3, h4, h5, h6]

/-- C4: a marker is rendered for a row exactly when a (latitude,
longitude) pair resolves for it; the combined field
"-7.93813533, 112.6332461" with no separate lat/lon columns resolves to
lat = -7.93813533, lon = 112.6332461 and yields exactly that marker. -/
theorem marker_rendered_iff_coordinates_resolve :
    (∀ (cols : List String) (colorCol : String)
        (levelCol indSuratCol indBungkusCol : Option String) (row : Row),
      (markerForRow cols colorCol levelCol indSuratCol indBungkusCol row).isSome =
        ((getLatLonFromRow cols row).1.isSome && (getLatLonFromRow cols row).2.isSome)) ∧
    getLatLonFromRow ["Koordinat"] [some "-7.93813533, 112.6332461"] =
      (some ⟨-793813533, 100000000⟩, some ⟨1126332461, 10000000⟩) ∧
    ((makeMap ⟨["Koordinat"], [[some "-7.93813533, 112.6332461"]]⟩ "Color").map.map
      (fun m => m.markers.map (fun mk => (mk.lat, mk.lon)))) =
      some [(⟨-793813533, 100000000⟩, ⟨1126332461, 10000000⟩)] := by
  refine ⟨?_, by decide, by decide⟩
  intro cols colorCol lc isc ibc row
  unfold markerForRow
  set q := getLatLonFromRow cols row with hq
  rcases q with ⟨la, lo⟩
  cases la <;> cases lo <;> rfl

/-- C5: marker fill color follows the priority Color/Warna cell (valid
hex) → caller color column (valid hex) → risk-level-derived color →
fixed `#3388ff`; a row with level "Medium" and no Color column fills
`#f2e804`, a valid Warna cell overrides the level, and with no candidate
at all the fallback `#3388ff` applies. -/
theorem fill_color_priority_order :
    (∀ (cols : List String) (colorCol : String) (levelCol : Option String) (row : Row),
      resolveFillColor cols colorCol levelCol row = fillColorSpec cols colorCol levelCol row) ∧
    ((makeMap ⟨["Level Resiko", "Koordinat"], [[some "Medium", some "1.0, 2.0"]]⟩ "Color").map.map
      (fun m => m.markers.map (fun mk => mk.fillColor))) = some ["#f2e804"] ∧
    resolveFillColor ["Warna", "Level Resiko"] "Color" (some "Level Resiko")
      [some "#123abc", some "Medium"] = "#123abc" ∧
    resolveFillColor ["Alamat"] "Color" none [some "x"] = "#3388ff" := by
  refine ⟨?_, by decide, by decide, by decide⟩
  intro cols colorCol levelCol row
  unfold resolveFillColor fillColorSpec
  dsimp only
  set c1 := getColorFromRow cols row with hc1
  set c2 := (if cols.contains colorCol then rowGet cols row colorCol else none) with hc2
  cases hv1 : validHexO c1
  case true => simp [hv1]
  case false =>
    cases hv2 : validHexO c2
    case true => simp [hv1, hv2]
    case false =>
      cases levelCol with
      | none => simp [hv1, hv2, validHexO_none]
      | some lc => simp [hv1, hv2, validHexO_some, riskToColorHex_validHex]

/-- C6: the assembled remote row follows the sheet's column order with the
level value, the combined "lat, lon" cell (empty when unparsed), the
risk-derived hex in a Color column, always-empty dedicated
latitude/longitude cells, and the collected input (upload URL, date or raw
text) everywhere else — demonstrated on a sheet with all column kinds,
where the dedicated Latitude/Longitude cells stay empty even though both
coordinates parsed. -/
theorem assembled_row_follows_sheet_column_order :
    (∀ (cols : List String) (levelCol : Option String) (levelValue : String)
        (latlon : Option (PyNum × PyNum)) (autoHex : String)
        (vals : List (String × String)),
      buildRow cols levelCol levelValue latlon autoHex vals =
        cols.map (assembleCellSpec levelCol levelValue latlon autoHex vals)) ∧
    buildRow ["Level Resiko", "Koordinat", "Color", "Latitude", "Longitude",
        "Dokumentasi Foto", "Tanggal Temuan", "No Urut", "Alamat"]
      (some "Level Resiko") "Medium"
      (some (⟨-793813533, 100000000⟩, ⟨1126332461, 10000000⟩)) "#f2e804"
      [("Dokumentasi Foto", "https://drive.google.com/uc?id=X"),
       ("Tanggal Temuan", "12/10/2026"), ("No Urut", "13"), ("Alamat", "Jl. X")] =
      ["Medium", "-7.93813533, 112.6332461", "#f2e804", "", "",
       "https://drive.google.com/uc?id=X", "12/10/2026", "13", "Jl. X"] ∧
    buildRow ["Koordinat"] none "" none "#3388ff" [] = [""] := by
  refine ⟨?_, by decide, by decide⟩
  intro cols levelCol levelValue latlon autoHex vals
  unfold buildRow
  rw [show assembleCell levelCol levelValue latlon autoHex vals =
        assembleCellSpec levelCol levelValue latlon autoHex vals from
      funext (fun col => assembleCell_eq_spec levelCol levelValue latlon autoHex vals col)]

/-- C7 counterexample: a number column whose values are all "0" makes the
last-number helper return "0", not the "Belum ada data" sentinel the claim
requires for a column where no value qualifies. -/
theorem all_zero_column_returns_zero_not_sentinel :
    getLastNumberFromColumn ⟨["No Urut"], [[some "0"], [some "0"]]⟩ "No Urut" = "0" ∧
    getLastNumberFromColumn ⟨["No Urut"], [[some "0"], [some "0"]]⟩ "No Urut" ≠
      "Belum ada data" :=
  ⟨by decide, by decide⟩

/-- C7 as amended: the helper scans from the most recently appended value
backwards, skipping blank/nan/none/"0", and returns the first qualifying
value annotated with its last embedded digit run; the "Belum ada data"
sentinel appears when the frame is empty, the column is missing, or every
value is blank-like — but when non-blank values exist and all of them are
"0", the helper returns "0" instead of the sentinel. -/
theorem last_number_helper_amended :
    (∀ (df : DataFrame) (c : String),
      getLastNumberFromColumn df c = lastNumberAmended df c) ∧
    getLastNumberFromColumn ⟨["No Urut"], [[some ""], [none], [some "nan"]]⟩ "No Urut" =
      "Belum ada data" ∧
    getLastNumberFromColumn ⟨["Alamat"], [[some "x"]]⟩ "No Urut" = "Belum ada data" ∧
    getLastNumberFromColumn ⟨["No Urut"], [[some "5"], [some "7"], [some "0"]]⟩ "No Urut" =
      "7 (angka: 7)" := by
  refine ⟨?_, by decide, by decide, by decide⟩
  intro df c
  unfold getLastNumberFromColumn lastNumberAmended
  cases hguard : (df.isEmptyDF || !df.cols.contains c) with
  | true => simp [hguard]
  | false =>
    simp only [hguard, Bool.false_eq_true, if_false]
    set retained :=
      (df.rows.map (fun r => strTrim (cellStr (rowGet df.cols r c)))).filter
        (fun v => !badValues.contains (strLower v)) with hret
    have hmem : ∀ v ∈ retained.reverse, badValues.contains (strLower v) = false := by
      intro v hvmem
      have h1 := List.mem_reverse.mp hvmem
      rw [hret] at h1
      have h2 := List.mem_filter.mp h1
      simpa using h2.2
    rw [lastNumberScan_eq_find _ hmem]
    cases hemp : retained.isEmpty with
    | true =>
      have hnil : retained = [] := List.isEmpty_iff.mp hemp
      simp [hemp, hnil]
    | false =>
      simp only [hemp, Bool.false_eq_true, if_false]
      cases hf : retained.reverse.find? (fun v => v != "0") with
      | some v => simp [hf]
      | none =>
        simp only [hf, Option.map_none']
        rw [List.head?_reverse]
        cases hlast : retained.getLast? with
        | some x => simp
        | none =>
          exfalso
          have hnil : retained = [] := by
            cases hr2 : retained with
            | nil => rfl
            | cons a l => rw [hr2] at hlast; simp [List.getLast?_eq_getLast] at hlast
          rw [hnil] at hemp
          simp at hemp

/-- C8: the risk-color mapper is total (a function by construction that
never raises), performs a case-insensitive whitespace-trimmed lookup in
the fixed five-entry table, and returns the caller default for empty or
unrecognized labels. -/
theorem risk_color_mapper_total_function :
    (∀ (v d : String), riskToColorHex v d = riskSpecLookup v d) ∧
    riskToColorHex "Lower" = "#3d3d3d" ∧
    riskToColorHex "Low" = "#7db86a" ∧
    riskToColorHex "Medium" = "#f2e804" ∧
    riskToColorHex "High" = "#ffaa00" ∧
    riskToColorHex "Emergency" = "#b10202" ∧
    riskToColorHex "  eMeRGeNcY  " = "#b10202" ∧
    riskToColorHex "unknown" "#123456" = "#123456" ∧
    riskToColorHex "" "#123456" = "#123456" := by
  refine ⟨?_, by decide, by decide, by decide, by decide, by decide, by decide, by decide, by decide⟩
  intro v d
  by_cases h : v = ""
  · subst h; rfl
  · have hb : (v == "") = false := by simp [h]
    unfold riskToColorHex riskSpecLookup
    simp only [hb, Bool.false_eq_true, if_false]
    rw [lookup_risk_table]

/-- C9 counterexample: pandas `df.empty` is true whenever either axis is
empty, so a frame with one row but zero columns also gets the null map —
refuting "only for datasets with zero rows". -/
theorem empty_columns_nonzero_rows_yields_null_map :
    (makeMap (⟨[], [[]]⟩ : DataFrame) "Color").map = none ∧
    (⟨[], [[]]⟩ : DataFrame).rows.length = 1 :=
  ⟨by decide, by decide⟩

/-- C9 as amended: the map builder returns the null map together with the
"no data" info signal exactly when the dataset has zero rows or zero
columns (pandas `df.empty`); every other dataset produces a map object,
even one with no valid coordinates (which simply renders zero markers). -/
theorem null_map_iff_empty_frame :
    (∀ (df : DataFrame) (colorCol : String),
      ((makeMap df colorCol).map = none ↔ df.rows = [] ∨ df.cols = []) ∧
      ((makeMap df colorCol).map = none ↔
        (makeMap df colorCol).infos = ["Tidak ada data untuk dipetakan."])) ∧
    (makeMap ⟨["Alamat"], []⟩ "Color").map = none ∧
    ((makeMap ⟨["Alamat"], [[some "x"]]⟩ "Color").map.map (fun m => m.markers.length)) =
      some 0 := by
  refine ⟨?_, by decide, by decide⟩
  intro df colorCol
  unfold makeMap DataFrame.isEmptyDF
  cases h1 : (df.rows.isEmpty || df.cols.isEmpty) with
  | true =>
    have hor : df.rows = [] ∨ df.cols = [] := by
      rcases (Bool.or_eq_true _ _).mp h1 with h | h
      · exact Or.inl (List.isEmpty_iff.mp h)
      · exact Or.inr (List.isEmpty_iff.mp h)
    simp [h1, hor]
  | false =>
    have hor : ¬(df.rows = [] ∨ df.cols = []) := by
      intro hcon
      rcases hcon with h | h <;> rw [h] at h1 <;> simp at h1
    simp [h1, hor]

/-- C10: the fingerprint of every zero-row dataset is the constant
"empty" regardless of its column names, so two empty datasets with
different column sets share a fingerprint and a header-only change to an
empty dataset never trips the fingerprint comparison that invalidates the
cached data or triggers a fingerprint-based map rebuild. -/
theorem empty_dataset_fingerprint_constant :
    (∀ (md5hex : String → String) (cols : List String),
      getDataHash md5hex ⟨cols, []⟩ = "empty") ∧
    (∀ (md5hex : String → String) (colsA colsB : List String),
      getDataHash md5hex ⟨colsA, []⟩ = getDataHash md5hex ⟨colsB, []⟩) ∧
    (∀ (md5hex : String → String) (colsA colsB : List String),
      dataChanged (getDataHash md5hex ⟨colsA, []⟩) md5hex ⟨colsB, []⟩ = false) ∧
    (∀ (md5hex : String → String) (cols : List String),
      mapNeedsRebuild "empty" false md5hex ⟨cols, []⟩ = false) ∧
    getDataHash (fun s => s) ⟨["A"], []⟩ = "empty" ∧
    getDataHash (fun s => s) ⟨["B", "C"], []⟩ = "empty" :=
  ⟨fun _ _ => rfl, fun _ _ _ => rfl, fun _ _ _ => rfl, fun _ _ => rfl, rfl, rfl⟩

end DashboardK3
